import Mathlib

/-
Verification of the graphql v2 request-dispatch subsystem.

The Go sources embedded here are: requester.go (Requester.Request,
requestMultipart, requestJSON, setRequestHeaders), errors.go (named error
values, GraphError), client.go (Client), request.go (Request, NewRequest,
Var, File).  Pure computation (JSON serialization of the request body,
header merging, error construction, branch structure of the dispatcher) is
translated directly; the outcomes of the external collaborators (the HTTP
transport's Do, io.ReadAll of the response body, json.Unmarshal of the
response body into the generic Response type, and the fallible steps of the
multipart writer) are supplied by an explicit World of oracles, so every
control-flow branch of the source is represented.
-/

namespace GraphqlV2

/-! ## JSON values and Go-style JSON encoding -/

/-- A JSON-serializable variable value.  Go's QueryVariables is
map[string]any; the model carries scalar values (no nested container
value is used anywhere in the repository or its tests; the top-level map
itself is modelled, including Go's key sorting and its nil/non-nil
distinction). -/
inductive JValue where
  | jnull : JValue
  | jbool (b : Bool) : JValue
  | jnum (n : Int) : JValue
  | jstr (s : String) : JValue
deriving DecidableEq

/-- Lower-case hex digit, as Go's encoding/json emits for control chars. -/
def hexChar (n : Nat) : Char :=
  if n < 10 then Char.ofNat (48 + n) else Char.ofNat (87 + n)

/-- Escaping of one character inside a JSON string, following Go's
encoding/json with the default HTML escaping of an Encoder. -/
def escapeChar (c : Char) : String :=
  if c = '"' then "\\\""
  else if c = '\\' then "\\\\"
  else if c = '\n' then "\\n"
  else if c = '\r' then "\\r"
  else if c = '\t' then "\\t"
  else if c = '<' then "\\u003c"
  else if c = '>' then "\\u003e"
  else if c = '&' then "\\u0026"
  else if c.toNat < 32 then
    "\\u00" ++ String.singleton (hexChar (c.toNat / 16)) ++ String.singleton (hexChar (c.toNat % 16))
  else if c.toNat = 8232 then "\\u2028"
  else if c.toNat = 8233 then "\\u2029"
  else String.singleton c

/-- Go JSON encoding of a string value, quotes included. -/
def encodeJSONString (s : String) : String :=
  "\"" ++ String.join (s.data.map escapeChar) ++ "\""

/-- Go JSON encoding of a scalar value. -/
def encodeJValue : JValue → String
  | .jnull => "null"
  | .jbool true => "true"
  | .jbool false => "false"
  | .jnum n => toString n
  | .jstr s => encodeJSONString s

/-! ## The Request value (request.go) -/

/-- Query is an opaque string naming a GraphQL document (its declaring file
is not part of the extracted sources; the spec and every use treat it as a
plain string type). -/
abbrev Query := String

/-- QueryVariables is Go's map[string]any, modelled as an association list
with unique keys; Request.vars distinguishes the nil map (none) from a
populated map (some l), exactly as Go distinguishes a nil map. -/
abbrev QueryVariables := List (String × JValue)

/-- A file attachment: Field and Name as in request.go; the attached
io.Reader byte stream has no observable content in any verified property,
its copy outcome is modelled by the World oracle. -/
structure File where
  field : String
  name : String
deriving DecidableEq

/-- http.Header: key to ordered list of values. -/
abbrev Header := List (String × List String)

/-- Request from request.go: query, variables (none models Go's nil map),
files, headers. -/
structure Request where
  q : Query
  vars : Option QueryVariables
  files : List File
  header : Header
deriving DecidableEq

/-- NewRequest from request.go: query set, vars left as the nil map, no
files, empty (non-nil) header map. -/
def NewRequest (q : Query) : Request :=
  ⟨q, none, [], []⟩

/-- Assignment m[k] = v on an association list with unique keys. -/
def updateVar (k : String) (v : JValue) : QueryVariables → QueryVariables
  | [] => [(k, v)]
  | (k', v') :: rest =>
    if k' = k then (k', v) :: rest else (k', v') :: updateVar k v rest

/-- Request.Var from request.go: allocates the map when it is nil, then
assigns the key. -/
def Request.var (req : Request) (k : String) (v : JValue) : Request :=
  match req.vars with
  | none => ⟨req.q, some [(k, v)], req.files, req.header⟩
  | some m => ⟨req.q, some (updateVar k v m), req.files, req.header⟩

/-- Request.File from request.go: appends an attachment. -/
def Request.file (req : Request) (fieldname filename : String) : Request :=
  ⟨req.q, req.vars, req.files ++ [⟨fieldname, filename⟩], req.header⟩

/-- len(req.vars) in Go: the nil map has length 0. -/
def varsLen : Option QueryVariables → Nat
  | none => 0
  | some l => l.length

/-! ## Serialization of the JSON-strategy request body (requester.go line 133) -/

/-- Insertion into a key-sorted variables list. -/
def insertVar (p : String × JValue) : QueryVariables → QueryVariables
  | [] => [p]
  | q :: t => if p.1 ≤ q.1 then p :: q :: t else q :: insertVar p t

/-- Go's json.Marshal emits map keys in sorted (byte-wise) order. -/
def sortVars : QueryVariables → QueryVariables
  | [] => []
  | p :: t => insertVar p (sortVars t)

/-- One key:value member of a JSON object. -/
def encodeVarPair (p : String × JValue) : String :=
  encodeJSONString p.1 ++ ":" ++ encodeJValue p.2

/-- Go JSON encoding of the QueryVariables field: the nil map encodes as
null, a non-nil map as an object with keys sorted. -/
def encodeVariables : Option QueryVariables → String
  | none => "null"
  | some l => "\x7b" ++ String.intercalate "," ((sortVars l).map encodeVarPair) ++ "\x7d"

/-- The body produced by json.NewEncoder(&request).Encode(requestQuery) in
requestJSON: the requestQuery struct has fields query then variables, and
Encoder.Encode appends a newline.  Encoding cannot fail here because every
modelled variable value is serializable, matching encoding/json on the
value shapes the repository uses. -/
def encodeRequestQuery (q : Query) (vars : Option QueryVariables) : String :=
  "\x7b\"query\":" ++ encodeJSONString q ++ ",\"variables\":" ++ encodeVariables vars ++ "\x7d\n"

/-! ## The error model (errors.go, github.com/pkg/errors) -/

/-- A Go error value: errors.New gives a flat message (fmt.Errorf without
percent-w likewise); errors.Wrap(cause, msg) renders as msg, colon, space,
cause. -/
inductive GoErr where
  | base (msg : String) : GoErr
  | wrap (cause : GoErr) (msg : String) : GoErr
deriving DecidableEq

/-- The rendered Error() text of a Go error value. -/
def GoErr.message : GoErr → String
  | .base m => m
  | .wrap c m => m ++ ": " ++ c.message

def ErrInvalidInput : GoErr := .base "cannot send files with PostFields option"

def ErrCreateVariablesField : GoErr := .base "create variables field"

def ErrEncodeVariablesField : GoErr := .base "encode variables"

def ErrCreateFile : GoErr := .base "create form file"

def ErrReadBody : GoErr := .base "read body"

def ErrDecode : GoErr := .base "decode"

def ErrCopy : GoErr := .base "copy"

def ErrRequest : GoErr := .base "graphql: server returned a non-200 status code"

/-- NewError from errors.go: errors.Wrap(err, wrappedErr.Error()). -/
def NewError (err wrappedErr : GoErr) : GoErr :=
  .wrap err wrappedErr.message

/-- The messages of the named failure categories of errors.go. -/
def categoryMessages : List String :=
  [ErrInvalidInput.message, ErrCreateVariablesField.message,
   ErrEncodeVariablesField.message, ErrCreateFile.message,
   ErrReadBody.message, ErrDecode.message, ErrCopy.message]

/-- Whether an error is one of the named failure categories of errors.go:
the category value itself, a wrap whose annotation is a category message,
or the status-derived Request error (ErrRequest's text followed by the
status code). -/
def isCategorized : GoErr → Bool
  | .base m => categoryMessages.contains m || m.startsWith (ErrRequest.message ++ ": ")
  | .wrap _ m => categoryMessages.contains m

/-! ## GraphError and Response (errors.go, requester.go) -/

structure GraphError (E : Type) where
  message : String
  extensions : E
deriving DecidableEq

/-- GraphError.Error from errors.go. -/
def GraphError.error {E : Type} (e : GraphError E) : String :=
  "graphql: " ++ e.message

/-- GraphError.GetExtensions from errors.go. -/
def GraphError.getExtensions {E : Type} (e : GraphError E) : E :=
  e.extensions

/-- Response from requester.go: data plus a list of GraphQL-level errors. -/
structure Response (T E : Type) where
  data : T
  errors : List (GraphError E)
deriving DecidableEq

/-- The Go zero value of Response: zero data, nil errors slice. -/
def Response.zero {T E : Type} [Inhabited T] : Response T E :=
  ⟨default, []⟩

/-! ## Client (client.go) -/

structure Client where
  endpoint : String
  useMultipartForm : Bool
  closeReq : Bool
deriving DecidableEq

/-- NewClient with no options: flags off. -/
def NewClient (endpoint : String) : Client :=
  ⟨endpoint, false, false⟩

/-- The UseMultipartForm client option. -/
def Client.withMultipartForm (c : Client) : Client :=
  ⟨c.endpoint, true, c.closeReq⟩

/-! ## Header merging (net/http, net/textproto) -/

/-- Go textproto validHeaderFieldByte: a token character. -/
def isTokenChar (c : Char) : Bool :=
  (c.isAlphanum && c.toNat < 128) ||
    [33, 35, 36, 37, 38, 39, 42, 43, 45, 46, 94, 95, 96, 124, 126].contains c.toNat

def toUpperAscii (c : Char) : Char :=
  if 97 ≤ c.toNat && c.toNat ≤ 122 then Char.ofNat (c.toNat - 32) else c

def toLowerAscii (c : Char) : Char :=
  if 65 ≤ c.toNat && c.toNat ≤ 90 then Char.ofNat (c.toNat + 32) else c

/-- Character pass of textproto's canonical key conversion: upper-case at
the start and after each hyphen, lower-case elsewhere. -/
def canonChars : Bool → List Char → List Char
  | _, [] => []
  | upper, c :: rest =>
    (if upper then toUpperAscii c else toLowerAscii c) :: canonChars (c = '-') rest

/-- textproto.CanonicalMIMEHeaderKey: keys with a non-token byte are
returned unchanged. -/
def canonicalKey (s : String) : String :=
  if s.data.all isTokenChar then ⟨canonChars true s.data⟩ else s

/-- The ordered list of values stored under a key (first matching entry;
construction keeps keys unique). -/
def Header.values : Header → String → List String
  | [], _ => []
  | (k', vs) :: t, k => if k' = k then vs else Header.values t k

/-- Map assignment h[ck] = [v] on the association list (first occurrence;
keys are unique by construction). -/
def setCanon : Header → String → String → Header
  | [], ck, v => [(ck, [v])]
  | (a, vs) :: t, ck, v =>
    if a = ck then (a, [v]) :: t else (a, vs) :: setCanon t ck v

/-- Map update h[ck] = append(h[ck], v) on the association list. -/
def addCanon : Header → String → String → Header
  | [], ck, v => [(ck, [v])]
  | (a, vs) :: t, ck, v =>
    if a = ck then (a, vs ++ [v]) :: t else (a, vs) :: addCanon t ck v

/-- http.Header.Set: replace the canonical key's values with the one
value. -/
def Header.set (h : Header) (k v : String) : Header :=
  setCanon h (canonicalKey k) v

/-- http.Header.Add: append the value to the canonical key's values. -/
def Header.add (h : Header) (k v : String) : Header :=
  addCanon h (canonicalKey k) v

/-- The inner loop of setRequestHeaders: Add each value of one request
header key, in order. -/
def addValuesFor (h : Header) (k : String) (vs : List String) : Header :=
  vs.foldl (fun h v => Header.add h k v) h

/-- The outer loop of setRequestHeaders: fold over every request header
entry. -/
def addHeaders (h : Header) (entries : Header) : Header :=
  entries.foldl (fun h e => addValuesFor h e.1 e.2) h

def jsonContentType : String := "application/json; charset=utf-8"

def acceptValue : String := "application/json; charset=utf-8"

/-- multipart.Writer.FormDataContentType for a given boundary. -/
def formDataContentType (boundary : String) : String :=
  "multipart/form-data; boundary=" ++ boundary

/-- setRequestHeaders from requester.go lines 114-123: Set the computed
Content-Type and Accept, then Add every key/value pair of the Request's
header map.  (The function also copies the client's closeReq flag onto the
http request; that flag does not touch the header map and carries no
verified property.) -/
def setRequestHeaders (req : Request) (contentType : String) : Header :=
  addHeaders (Header.set (Header.set [] "Content-Type" contentType) "Accept" acceptValue) req.header

/-- The values contributed for one canonical key by a header map's entries,
in entry order. -/
def collectHeaderValues (entries : Header) (k : String) : List String :=
  entries.foldr (fun e acc => (if canonicalKey e.1 = k then e.2 else []) ++ acc) []

/-! ## The dispatcher (requester.go)

The outcomes of the external collaborators are supplied by a World of
oracles: each fallible library call the source makes (multipart writer
steps, http.NewRequestWithContext, the transport's Do, io.ReadAll of the
response body, json.Unmarshal of the body) appears as one World field, so
every return statement of the Go functions is one branch of the Lean
definitions. -/

/-- The observable part of the transport's reply: the HTTP status code and
the outcome of io.ReadAll on the response body. -/
structure HttpRes where
  statusCode : Nat
  readResult : Except GoErr String

/-- Oracles for the external collaborators of one Requester.Request call.
decode models json.Unmarshal of a body into a zero-initialized Response
target: the first component is the final state of the target and the
second the returned error.  On a nil error the target holds the decoded
value; on a syntax error Unmarshal leaves the target untouched (zero); on
a type-mismatch error it may leave the target partially populated, and the
source returns that target as-is next to the error. -/
structure World (T E : Type) where
  boundary : String
  writeQueryErr : Option GoErr
  createVariablesFieldErr : Option GoErr
  encodeVariablesErr : Option GoErr
  createFormFileErr : Nat → Option GoErr
  copyFileErr : Nat → Option GoErr
  closeWriterErr : Option GoErr
  newRequestErr : Option GoErr
  doResult : Except GoErr HttpRes
  decode : String → Response T E × Option GoErr

/-- What one call to the dispatcher produced: the returned pair, how many
times the transport's Do ran, and the headers and JSON body attached to
the outbound request (sentBody is the JSON-strategy serialization; the
multipart strategy's byte payload is boundary-dependent and carries no
verified property, so it is left none there). -/
structure Outcome (T E : Type) where
  response : Response T E
  error : Option GoErr
  calls : Nat
  sentHeaders : Option Header
  sentBody : Option String

/-- Requester from requester.go: bound to one Client and one pair of
result/error-extension types. -/
structure Requester (T E : Type) where
  client : Client

/-- NewRequester from requester.go. -/
def NewRequester (T E : Type) (client : Client) : Requester T E :=
  ⟨client⟩

/-- The file loop of requestMultipart (lines 75-83): for each file in
order, CreateFormFile then io.Copy, stopping at the first failure with its
categorized error. -/
def writeFilesErr {T E : Type} (w : World T E) : List File → Nat → Option GoErr
  | [], _ => none
  | _ :: rest, i =>
    match w.createFormFileErr i with
    | some e => some (NewError e ErrCreateFile)
    | none =>
      match w.copyFileErr i with
      | some e => some (NewError e ErrCopy)
      | none => writeFilesErr w rest (i + 1)

/-- The variables block of requestMultipart (lines 63-74): only entered
when len(req.vars) > 0; CreateFormField then the JSON encode, each failure
wrapped in its named category. -/
def writeVariablesErr {T E : Type} (w : World T E) (vars : Option QueryVariables) : Option GoErr :=
  if 0 < varsLen vars then
    match w.createVariablesFieldErr with
    | some e => some (NewError e ErrCreateVariablesField)
    | none =>
      match w.encodeVariablesErr with
      | some e => some (NewError e ErrEncodeVariablesField)
      | none => none
  else none

/-- requestMultipart from requester.go lines 51-112, branch for branch:
WriteField("query") failure returned raw; variables and file steps wrapped
in named categories; writer.Close failure wrapped as "close writer";
NewRequestWithContext and Do failures returned raw; a body-read failure
reported as the status-derived Request error when the status is not 200
and as a ReadBody error otherwise; an Unmarshal failure reported as a
Decode error unconditionally, returned next to the Unmarshal target as
the source returns the response variable. -/
def Requester.requestMultipart {T E : Type} [Inhabited T]
    (r : Requester T E) (req : Request) (w : World T E) : Outcome T E :=
  match w.writeQueryErr with
  | some e => ⟨Response.zero, some e, 0, none, none⟩
  | none =>
    match writeVariablesErr w req.vars with
    | some er => ⟨Response.zero, some er, 0, none, none⟩
    | none =>
      match writeFilesErr w req.files 0 with
      | some er => ⟨Response.zero, some er, 0, none, none⟩
      | none =>
        match w.closeWriterErr with
        | some e => ⟨Response.zero, some (.wrap e "close writer"), 0, none, none⟩
        | none =>
          match w.newRequestErr with
          | some e => ⟨Response.zero, some e, 0, none, none⟩
          | none =>
            match w.doResult with
            | .error e =>
              ⟨Response.zero, some e, 1,
                some (setRequestHeaders req (formDataContentType w.boundary)), none⟩
            | .ok httpRes =>
              match httpRes.readResult with
              | .error e =>
                if httpRes.statusCode ≠ 200 then
                  ⟨Response.zero,
                    some (.base (ErrRequest.message ++ ": " ++ toString httpRes.statusCode)),
                    1, some (setRequestHeaders req (formDataContentType w.boundary)), none⟩
                else
                  ⟨Response.zero, some (NewError e ErrReadBody), 1,
                    some (setRequestHeaders req (formDataContentType w.boundary)), none⟩
              | .ok body =>
                match w.decode body with
                | (response, some e) =>
                  ⟨response, some (NewError e ErrDecode), 1,
                    some (setRequestHeaders req (formDataContentType w.boundary)), none⟩
                | (response, none) =>
                  ⟨response, none, 1,
                    some (setRequestHeaders req (formDataContentType w.boundary)), none⟩

/-- requestJSON from requester.go lines 125-160, branch for branch: the
body is the JSON serialization of the requestQuery struct (serialization
cannot fail on the modelled variable values); NewRequestWithContext and Do
failures returned raw; a body-read failure reported as a ReadBody error
with no status check; an Unmarshal failure reported as the status-derived
Request error when the status is not 200 and otherwise wrapped as
"decoding response", in both cases returned next to the Unmarshal target
as the source returns the response variable. -/
def Requester.requestJSON {T E : Type} [Inhabited T]
    (r : Requester T E) (req : Request) (w : World T E) : Outcome T E :=
  match w.newRequestErr with
  | some e => ⟨Response.zero, some e, 0, none, none⟩
  | none =>
    match w.doResult with
    | .error e =>
      ⟨Response.zero, some e, 1, some (setRequestHeaders req jsonContentType),
        some (encodeRequestQuery req.q req.vars)⟩
    | .ok httpRes =>
      match httpRes.readResult with
      | .error e =>
        ⟨Response.zero, some (NewError e ErrReadBody), 1,
          some (setRequestHeaders req jsonContentType),
          some (encodeRequestQuery req.q req.vars)⟩
      | .ok resBody =>
        match w.decode resBody with
        | (response, some e) =>
          if httpRes.statusCode ≠ 200 then
            ⟨response,
              some (.base (ErrRequest.message ++ ": " ++ toString httpRes.statusCode)),
              1, some (setRequestHeaders req jsonContentType),
              some (encodeRequestQuery req.q req.vars)⟩
          else
            ⟨response, some (.wrap e "decoding response"), 1,
              some (setRequestHeaders req jsonContentType),
              some (encodeRequestQuery req.q req.vars)⟩
        | (response, none) =>
          ⟨response, none, 1, some (setRequestHeaders req jsonContentType),
            some (encodeRequestQuery req.q req.vars)⟩

/-- Requester.Request from requester.go lines 36-49: fail fast with
ErrInvalidInput when files are attached but the client is not multipart,
then dispatch on the client's multipart flag alone. -/
def Requester.request {T E : Type} [Inhabited T]
    (r : Requester T E) (req : Request) (w : World T E) : Outcome T E :=
  if 0 < req.files.length ∧ r.client.useMultipartForm = false then
    ⟨Response.zero, some ErrInvalidInput, 0, none, none⟩
  else if r.client.useMultipartForm then r.requestMultipart req w
  else r.requestJSON req w

/-! ## Concrete fixtures, mirroring the repository's test scenarios -/

def clientJSON : Client := NewClient "endpoint"

def clientMP : Client := Client.withMultipartForm (NewClient "endpoint")

def rqJSON : Requester Nat Nat := NewRequester Nat Nat clientJSON

def rqMP : Requester Nat Nat := NewRequester Nat Nat clientMP

def reqPlain : Request := NewRequest "query \x7b\x7d"

def reqWithFile : Request := Request.file (NewRequest "query \x7b\x7d") "file" "a.txt"

def reqAuth : Request :=
  ⟨"query \x7b\x7d", none, [], [("Authorization", ["Bearer token"])]⟩

def reqVarUser : Request :=
  Request.var (NewRequest "query \x7b\x7d") "username" (.jstr "testUser")

/-- A transport reply: 200, readable body, decodable response. -/
def wOk : World Nat Nat :=
  ⟨"bnd", none, none, none, fun _ => none, fun _ => none, none, none,
    .ok ⟨200, .ok "ok"⟩, fun _ => (⟨7, []⟩, none)⟩

/-- A transport reply: 500 with a readable but undecodable plain-text
body, as in the test with the Internal Server error body. -/
def wDec500 : World Nat Nat :=
  ⟨"bnd", none, none, none, fun _ => none, fun _ => none, none, none,
    .ok ⟨500, .ok "Internal Server error"⟩,
    fun _ => (Response.zero, some (.base "invalid character"))⟩

/-- A transport reply: 200 with a readable but undecodable body. -/
def wDec200 : World Nat Nat :=
  ⟨"bnd", none, none, none, fun _ => none, fun _ => none, none, none,
    .ok ⟨200, .ok "not json"⟩, fun _ => (Response.zero, some (.base "invalid character"))⟩

/-- A transport reply: 500 whose body read fails. -/
def wRead500 : World Nat Nat :=
  ⟨"bnd", none, none, none, fun _ => none, fun _ => none, none, none,
    .ok ⟨500, .error (.base "unexpected EOF")⟩, fun _ => (Response.zero, none)⟩

/-- A transport reply: 200 whose body read fails. -/
def wRead200 : World Nat Nat :=
  ⟨"bnd", none, none, none, fun _ => none, fun _ => none, none, none,
    .ok ⟨200, .error (.base "unexpected EOF")⟩, fun _ => (Response.zero, none)⟩

/-- A transport reply: 200 with a syntactically valid body that hits a
type mismatch: json.Unmarshal decodes the data field, fails on the errors
field, and leaves the target partially populated. -/
def wDecPartial : World Nat Nat :=
  ⟨"bnd", none, none, none, fun _ => none, fun _ => none, none, none,
    .ok ⟨200, .ok "mixed"⟩,
    fun _ => (⟨7, []⟩, some (.base "json: cannot unmarshal number"))⟩

/-- A failing transport: Do returns a connection-level error. -/
def wDoFail : World Nat Nat :=
  ⟨"bnd", none, none, none, fun _ => none, fun _ => none, none, none,
    .error (.base "connection refused"), fun _ => (Response.zero, none)⟩

/-! ## Helper lemmas -/

/-- Once http.NewRequestWithContext has succeeded, the JSON strategy's
outbound body is the serialized requestQuery, on every subsequent path. -/
theorem requestJSON_sentBody {T E : Type} [Inhabited T]
    (r : Requester T E) (req : Request) (w : World T E)
    (hnr : w.newRequestErr = none) :
    (r.requestJSON req w).sentBody = some (encodeRequestQuery req.q req.vars) := by
  unfold Requester.requestJSON
  repeat' split
  all_goals simp_all

/-- Once http.NewRequestWithContext has succeeded, the JSON strategy's
outbound headers are the merged headers, on every subsequent path. -/
theorem requestJSON_sentHeaders {T E : Type} [Inhabited T]
    (r : Requester T E) (req : Request) (w : World T E)
    (hnr : w.newRequestErr = none) :
    (r.requestJSON req w).sentHeaders = some (setRequestHeaders req jsonContentType) := by
  unfold Requester.requestJSON
  repeat' split
  all_goals simp_all

/-- Once every local multipart step has succeeded, the multipart
strategy's outbound headers are the merged headers with the writer's
boundary content type, on every subsequent path. -/
theorem requestMultipart_sentHeaders {T E : Type} [Inhabited T]
    (r : Requester T E) (req : Request) (w : World T E)
    (hwq : w.writeQueryErr = none) (hv : writeVariablesErr w req.vars = none)
    (hf : writeFilesErr w req.files 0 = none) (hcl : w.closeWriterErr = none)
    (hnr : w.newRequestErr = none) :
    (r.requestMultipart req w).sentHeaders =
      some (setRequestHeaders req (formDataContentType w.boundary)) := by
  unfold Requester.requestMultipart
  repeat' split
  all_goals simp_all

/-! ## The claims -/

/-- Claim C1: for every Request carrying at least one file attachment, if
the bound Client's multipart flag is false then Requester.Request returns
the InvalidInput error immediately, the transport's Do never runs (zero
network calls), and the Response is the zero value. -/
theorem request_files_without_multipart_fails {T E : Type} [Inhabited T]
    (r : Requester T E) (req : Request) (w : World T E)
    (hfiles : 0 < req.files.length) (hflag : r.client.useMultipartForm = false) :
    (r.request req w).error = some ErrInvalidInput ∧
    (r.request req w).calls = 0 ∧
    (r.request req w).response = Response.zero := by
  unfold Requester.request
  rw [if_pos ⟨hfiles, hflag⟩]
  exact ⟨rfl, rfl, rfl⟩

/-- Witness for C1: one attached file, a non-multipart client. -/
theorem request_files_without_multipart_fails_witness :
    0 < reqWithFile.files.length ∧ rqJSON.client.useMultipartForm = false ∧
    (rqJSON.request reqWithFile wOk).error = some ErrInvalidInput ∧
    (rqJSON.request reqWithFile wOk).calls = 0 := by
  refine ⟨by decide, rfl, ?_, ?_⟩
  · exact (request_files_without_multipart_fails rqJSON reqWithFile wOk (by decide) rfl).1
  · exact (request_files_without_multipart_fails rqJSON reqWithFile wOk (by decide) rfl).2.1

/-- Claim C5: for every Request on which no variable was ever set (the
variables map is still Go's nil map), the JSON strategy's serialized
request body carries the variables field as the literal null, not an empty
object. -/
theorem json_body_variables_null {T E : Type} [Inhabited T]
    (r : Requester T E) (req : Request) (w : World T E)
    (hvars : req.vars = none) (hnr : w.newRequestErr = none) :
    (r.requestJSON req w).sentBody =
      some ("\x7b\"query\":" ++ encodeJSONString req.q ++ ",\"variables\":" ++ "null" ++ "\x7d\n") := by
  rw [requestJSON_sentBody r req w hnr, hvars]
  rfl

/-- Witness for C5: a fresh Request with no variables serializes with
variables null. -/
theorem json_body_variables_null_witness :
    reqPlain.vars = none ∧ wOk.newRequestErr = none ∧
    (rqJSON.requestJSON reqPlain wOk).sentBody =
      some ("\x7b\"query\":" ++ encodeJSONString reqPlain.q ++ ",\"variables\":" ++ "null" ++ "\x7d\n") :=
  ⟨rfl, rfl, json_body_variables_null rqJSON reqPlain wOk rfl rfl⟩

/-- Claim C7, counterexample: for the Request with query "query \x7b\x7d"
and the single variable username = "testUser", the serialized body is NOT
exactly the claimed string — json.Encoder.Encode appends a newline, as the
repository's own test expects. -/
theorem json_body_username_counterexample :
    (rqJSON.requestJSON reqVarUser wOk).sentBody ≠
      some "\x7b\"query\":\"query \x7b\x7d\",\"variables\":\x7b\"username\":\"testUser\"\x7d\x7d" := by
  decide

/-- Claim C7 as amended: the serialized body is exactly the claimed string
followed by the trailing newline that json.Encoder.Encode appends. -/
theorem json_body_username_amended :
    (rqJSON.requestJSON reqVarUser wOk).sentBody =
      some "\x7b\"query\":\"query \x7b\x7d\",\"variables\":\x7b\"username\":\"testUser\"\x7d\x7d\n" := by
  decide

/-- Claim C10: in the JSON strategy, a response-body read failure yields
the ReadBody-category error regardless of the HTTP status code; the
status-derived Request error is never produced on this path. -/
theorem json_read_failure_is_read_body {T E : Type} [Inhabited T]
    (r : Requester T E) (req : Request) (w : World T E)
    (status : Nat) (e : GoErr)
    (hnr : w.newRequestErr = none)
    (hdo : w.doResult = .ok ⟨status, .error e⟩) :
    (r.requestJSON req w).error = some (NewError e ErrReadBody) ∧
    (r.requestJSON req w).error ≠
      some (.base (ErrRequest.message ++ ": " ++ toString status)) := by
  have h1 : (r.requestJSON req w).error = some (NewError e ErrReadBody) := by
    unfold Requester.requestJSON
    rw [hnr, hdo]
  refine ⟨h1, ?_⟩
  rw [h1]
  intro hcontra
  simp [NewError] at hcontra

/-- Witness for C10: read failure with status 500 still reports ReadBody,
not the status-derived error. -/
theorem json_read_failure_is_read_body_witness :
    wRead500.newRequestErr = none ∧
    wRead500.doResult = .ok ⟨500, .error (.base "unexpected EOF")⟩ ∧
    (rqJSON.requestJSON reqPlain wRead500).error =
      some (NewError (.base "unexpected EOF") ErrReadBody) :=
  ⟨rfl, rfl,
    (json_read_failure_is_read_body rqJSON reqPlain wRead500 500 (.base "unexpected EOF")
      rfl rfl).1⟩

/-- Claim C2: in the JSON strategy, when decoding fails the non-200 status
takes priority — the error is the status-derived Request error (the decode
error is discarded), with the exact text "graphql: server returned a
non-200 status code: 500" at status 500 — while at status 200 the decode
error is wrapped as a decode failure. -/
theorem json_decode_failure_status_policy {T E : Type} [Inhabited T]
    (r : Requester T E) (req : Request) (w : World T E)
    (status : Nat) (body : String) (e : GoErr) (dresp : Response T E)
    (hnr : w.newRequestErr = none)
    (hdo : w.doResult = .ok ⟨status, .ok body⟩)
    (hdec : w.decode body = (dresp, some e)) :
    (status ≠ 200 → (r.requestJSON req w).error =
      some (.base (ErrRequest.message ++ ": " ++ toString status))) ∧
    (status = 500 → (r.requestJSON req w).error =
      some (.base "graphql: server returned a non-200 status code: 500")) ∧
    (status = 200 → (r.requestJSON req w).error = some (.wrap e "decoding response")) := by
  unfold Requester.requestJSON
  rw [hnr, hdo]
  refine ⟨fun h => ?_, fun h => ?_, fun h => ?_⟩
  · simp [hdec, h]
  · subst h
    simp [hdec]
    rfl
  · subst h
    simp [hdec]

/-- Witness for C2: the 500-with-undecodable-body scenario of the
repository's test produces exactly the expected error text. -/
theorem json_decode_failure_status_policy_witness :
    wDec500.newRequestErr = none ∧
    wDec500.doResult = .ok ⟨500, .ok "Internal Server error"⟩ ∧
    wDec500.decode "Internal Server error" =
      (Response.zero, some (.base "invalid character")) ∧
    (rqJSON.requestJSON reqPlain wDec500).error =
      some (.base "graphql: server returned a non-200 status code: 500") :=
  ⟨rfl, rfl, rfl,
    (json_decode_failure_status_policy rqJSON reqPlain wDec500 500 "Internal Server error"
      (.base "invalid character") Response.zero rfl rfl rfl).2.1 rfl⟩

/-- Claim C3: in the multipart strategy, a body-read failure yields the
status-derived Request error when the status is not 200 and a ReadBody
error at status 200, while a decode failure after a successful read yields
a Decode error for every status, with no status check. -/
theorem multipart_read_and_decode_policy {T E : Type} [Inhabited T]
    (r : Requester T E) (req : Request) (w : World T E) (status : Nat)
    (hwq : w.writeQueryErr = none) (hv : writeVariablesErr w req.vars = none)
    (hf : writeFilesErr w req.files 0 = none) (hcl : w.closeWriterErr = none)
    (hnr : w.newRequestErr = none) :
    (∀ e, w.doResult = .ok ⟨status, .error e⟩ → status ≠ 200 →
      (r.requestMultipart req w).error =
        some (.base (ErrRequest.message ++ ": " ++ toString status))) ∧
    (∀ e, w.doResult = .ok ⟨status, .error e⟩ → status = 200 →
      (r.requestMultipart req w).error = some (NewError e ErrReadBody)) ∧
    (∀ e dresp body, w.doResult = .ok ⟨status, .ok body⟩ →
      w.decode body = (dresp, some e) →
      (r.requestMultipart req w).error = some (NewError e ErrDecode)) := by
  refine ⟨fun e hdo h => ?_, fun e hdo h => ?_, fun e dresp body hdo hdec => ?_⟩
  · simp only [Requester.requestMultipart, hwq, hv, hf, hcl, hnr, hdo]
    simp [h]
  · subst h
    simp only [Requester.requestMultipart, hwq, hv, hf, hcl, hnr, hdo]
    simp
  · simp only [Requester.requestMultipart, hwq, hv, hf, hcl, hnr, hdo, hdec]

/-- Witness for C3: multipart client, read failure at status 500 yields
the status-derived error. -/
theorem multipart_read_and_decode_policy_witness :
    wRead500.writeQueryErr = none ∧
    writeVariablesErr wRead500 reqPlain.vars = none ∧
    writeFilesErr wRead500 reqPlain.files 0 = none ∧
    wRead500.closeWriterErr = none ∧
    wRead500.newRequestErr = none ∧
    wRead500.doResult = .ok ⟨500, .error (.base "unexpected EOF")⟩ ∧
    (rqMP.requestMultipart reqPlain wRead500).error =
      some (.base (ErrRequest.message ++ ": " ++ toString 500)) :=
  ⟨rfl, rfl, rfl, rfl, rfl, rfl,
    (multipart_read_and_decode_policy rqMP reqPlain wRead500 500 rfl rfl rfl rfl rfl).1
      (.base "unexpected EOF") rfl (by decide)⟩

/-- Claim C4: whenever the response body decodes successfully, Request
returns the decoded Response with a nil error, regardless of the HTTP
status and of any GraphQL-level error entries, which come back as data in
Response.errors. -/
theorem request_successful_decode_is_success {T E : Type} [Inhabited T]
    (r : Requester T E) (req : Request) (w : World T E)
    (status : Nat) (body : String) (resp : Response T E)
    (hpre : 0 < req.files.length → r.client.useMultipartForm = true)
    (hwq : w.writeQueryErr = none) (hv : writeVariablesErr w req.vars = none)
    (hf : writeFilesErr w req.files 0 = none) (hcl : w.closeWriterErr = none)
    (hnr : w.newRequestErr = none)
    (hdo : w.doResult = .ok ⟨status, .ok body⟩)
    (hdec : w.decode body = (resp, none)) :
    (r.request req w).response = resp ∧
    (r.request req w).error = none ∧
    (r.request req w).response.errors = resp.errors := by
  by_cases hm : r.client.useMultipartForm = true
  · have hdisp : r.request req w = r.requestMultipart req w := by
      simp [Requester.request, hm]
    rw [hdisp]
    simp [Requester.requestMultipart, hwq, hv, hf, hcl, hnr, hdo, hdec]
  · have hm' : r.client.useMultipartForm = false := by
      revert hm
      cases r.client.useMultipartForm <;> simp
    have hnf : ¬ 0 < req.files.length := fun hfl => hm (hpre hfl)
    have hdisp : r.request req w = r.requestJSON req w := by
      simp [Requester.request, hm', hnf]
    rw [hdisp]
    simp [Requester.requestJSON, hnr, hdo, hdec]

/-- Witness for C4: a 200 reply whose body decodes to data 7 and no error
entries comes back verbatim with a nil error. -/
theorem request_successful_decode_is_success_witness :
    wOk.doResult = .ok ⟨200, .ok "ok"⟩ ∧
    wOk.decode "ok" = (⟨7, []⟩, none) ∧
    (rqJSON.request reqPlain wOk).response = (⟨7, []⟩ : Response Nat Nat) ∧
    (rqJSON.request reqPlain wOk).error = none :=
  ⟨rfl, rfl,
    (request_successful_decode_is_success rqJSON reqPlain wOk 200 "ok" ⟨7, []⟩
      (by decide) rfl rfl rfl rfl rfl rfl rfl).1,
    (request_successful_decode_is_success rqJSON reqPlain wOk 200 "ok" ⟨7, []⟩
      (by decide) rfl rfl rfl rfl rfl rfl rfl).2.1⟩

/-- Claim C9: under the files-imply-multipart precondition, the strategy
is chosen by the client's multipart flag alone: multipart whenever the
flag is true (files or not), JSON whenever it is false. -/
theorem request_dispatch_by_flag {T E : Type} [Inhabited T]
    (r : Requester T E) (req : Request) (w : World T E)
    (hpre : 0 < req.files.length → r.client.useMultipartForm = true) :
    r.request req w =
      if r.client.useMultipartForm then r.requestMultipart req w
      else r.requestJSON req w := by
  by_cases hm : r.client.useMultipartForm = true
  · simp [Requester.request, hm]
  · have hm' : r.client.useMultipartForm = false := by
      revert hm
      cases r.client.useMultipartForm <;> simp
    have hnf : ¬ 0 < req.files.length := fun hfl => hm (hpre hfl)
    simp [Requester.request, hm', hnf]

/-- Witness for C9: a multipart client with a file attached dispatches to
the multipart strategy. -/
theorem request_dispatch_by_flag_witness :
    (0 < reqWithFile.files.length → rqMP.client.useMultipartForm = true) ∧
    rqMP.request reqWithFile wOk =
      (if rqMP.client.useMultipartForm then rqMP.requestMultipart reqWithFile wOk
       else rqMP.requestJSON reqWithFile wOk) :=
  ⟨fun _ => rfl, request_dispatch_by_flag rqMP reqWithFile wOk (fun _ => rfl)⟩

set_option maxRecDepth 8000 in
/-- Claim C8, counterexample: both halves of the claim fail on concrete
inputs.  A connection-level transport failure comes back as the raw,
unwrapped transport error, in none of the named failure categories; and a
decode failure on a type-mismatched body comes back with the partially
populated json.Unmarshal target, not the zero-value Response. -/
theorem request_uncategorized_error_counterexample :
    (rqJSON.request reqPlain wDoFail).error = some (.base "connection refused") ∧
    isCategorized (GoErr.base "connection refused") = false ∧
    (rqJSON.request reqPlain wDoFail).response = (Response.zero : Response Nat Nat) ∧
    (rqJSON.request reqPlain wDecPartial).error ≠ none ∧
    (rqJSON.request reqPlain wDecPartial).response ≠ (Response.zero : Response Nat Nat) := by
  exact ⟨by decide, by decide, by decide, by decide, by decide⟩

set_option maxRecDepth 8000 in
/-- Claim C8 as amended: every call returns either the decoded Response
with a nil error, or a Response with a non-nil error; in the error case
the Response is the zero value except on the decode-failure paths, where
it is whatever json.Unmarshal left in the target for the read body —
possibly partially populated.  The error is not always wrapped in a named
category: transport and request-construction errors pass through
unwrapped. -/
theorem request_error_zero_or_unmarshal_target {T E : Type} [Inhabited T]
    (r : Requester T E) (req : Request) (w : World T E) :
    (r.request req w).error = none ∨
    (r.request req w).response = Response.zero ∨
    (∃ status body, w.doResult = .ok ⟨status, .ok body⟩ ∧
      (r.request req w).response = (w.decode body).1) := by
  have hjson : (r.requestJSON req w).error = none ∨
      (r.requestJSON req w).response = Response.zero ∨
      (∃ status body, w.doResult = .ok ⟨status, .ok body⟩ ∧
        (r.requestJSON req w).response = (w.decode body).1) := by
    unfold Requester.requestJSON
    cases hnr : w.newRequestErr with
    | some e => simp
    | none =>
      cases hdo : w.doResult with
      | error e => simp
      | ok hr =>
        obtain ⟨st, rr⟩ := hr
        cases rr with
        | error e => by_cases hst : st ≠ 200 <;> simp [hst]
        | ok body =>
          cases hdec : w.decode body with
          | mk dresp derr =>
            cases derr with
            | some e =>
              right; right
              refine ⟨st, body, rfl, ?_⟩
              simp only [hdec]
              by_cases hst : st ≠ 200 <;> simp [hst]
            | none => simp [hdec]
  have hmp : (r.requestMultipart req w).error = none ∨
      (r.requestMultipart req w).response = Response.zero ∨
      (∃ status body, w.doResult = .ok ⟨status, .ok body⟩ ∧
        (r.requestMultipart req w).response = (w.decode body).1) := by
    unfold Requester.requestMultipart
    cases hwq : w.writeQueryErr with
    | some e => simp
    | none =>
      cases hv : writeVariablesErr w req.vars with
      | some er => simp
      | none =>
        cases hf : writeFilesErr w req.files 0 with
        | some er => simp
        | none =>
          cases hcl : w.closeWriterErr with
          | some e => simp
          | none =>
            cases hnr : w.newRequestErr with
            | some e => simp
            | none =>
              cases hdo : w.doResult with
              | error e => simp
              | ok hr =>
                obtain ⟨st, rr⟩ := hr
                cases rr with
                | error e => by_cases hst : st ≠ 200 <;> simp [hst]
                | ok body =>
                  cases hdec : w.decode body with
                  | mk dresp derr =>
                    cases derr with
                    | some e =>
                      right; right
                      exact ⟨st, body, rfl, by simp [hdec]⟩
                    | none => simp [hdec]
  unfold Requester.request
  repeat' split
  · simp
  · exact hmp
  · exact hjson

/-! ## Header-merge lemmas for claim C6 -/

theorem values_addCanon (h : Header) (ck v k : String) :
    Header.values (addCanon h ck v) k =
      if ck = k then Header.values h k ++ [v] else Header.values h k := by
  induction h with
  | nil =>
    by_cases hck : ck = k <;> simp [addCanon, Header.values, hck]
  | cons p t ih =>
    obtain ⟨a, vs⟩ := p
    by_cases hack : a = ck
    · subst hack
      by_cases hak : a = k <;> simp [addCanon, Header.values, hak]
    · by_cases hak : a = k
      · subst hak
        have hck : ck ≠ a := fun hh => hack hh.symm
        simp [addCanon, hack, Header.values, hck]
      · simp [addCanon, hack, Header.values, hak, ih]

theorem values_add (h : Header) (k' v k : String) :
    Header.values (Header.add h k' v) k =
      if canonicalKey k' = k then Header.values h k ++ [v] else Header.values h k :=
  values_addCanon h (canonicalKey k') v k

theorem values_addValuesFor (h : Header) (k' : String) (vs : List String) (k : String) :
    Header.values (addValuesFor h k' vs) k =
      Header.values h k ++ (if canonicalKey k' = k then vs else []) := by
  induction vs generalizing h with
  | nil => simp [addValuesFor]
  | cons v t ih =>
    have hstep : addValuesFor h k' (v :: t) = addValuesFor (Header.add h k' v) k' t := rfl
    rw [hstep, ih, values_add]
    by_cases hck : canonicalKey k' = k <;> simp [hck]

theorem values_addHeaders (h : Header) (es : Header) (k : String) :
    Header.values (addHeaders h es) k =
      Header.values h k ++ collectHeaderValues es k := by
  induction es generalizing h with
  | nil => simp [addHeaders, collectHeaderValues]
  | cons e t ih =>
    have h1 : addHeaders h (e :: t) = addHeaders (addValuesFor h e.1 e.2) t := rfl
    have h2 : collectHeaderValues (e :: t) k =
        (if canonicalKey e.1 = k then e.2 else []) ++ collectHeaderValues t k := rfl
    rw [h1, ih, values_addValuesFor, h2, List.append_assoc]

theorem values_baseHeader (ct k : String) :
    Header.values (Header.set (Header.set [] "Content-Type" ct) "Accept" acceptValue) k =
      if "Content-Type" = k then [ct] else if "Accept" = k then [acceptValue] else [] :=
  rfl

/-- Claim C6: in both strategies the outbound headers are built by setting
the computed Content-Type and Accept first and then adding every Request
header key/value pair without replacing existing values, so caller headers
appear verbatim alongside the computed ones and a caller-supplied
Content-Type yields multiple values for that key. -/
theorem set_request_headers_merge :
    ∀ (req : Request) (ct : String),
      (∀ k, Header.values (setRequestHeaders req ct) k =
        ((if "Content-Type" = k then [ct]
          else if "Accept" = k then [acceptValue] else []) ++
          collectHeaderValues req.header k)) ∧
      (∀ {T E : Type} [Inhabited T] (r : Requester T E) (w : World T E),
        w.newRequestErr = none →
        (r.requestJSON req w).sentHeaders = some (setRequestHeaders req jsonContentType)) ∧
      (∀ {T E : Type} [Inhabited T] (r : Requester T E) (w : World T E),
        w.writeQueryErr = none → writeVariablesErr w req.vars = none →
        writeFilesErr w req.files 0 = none → w.closeWriterErr = none →
        w.newRequestErr = none →
        (r.requestMultipart req w).sentHeaders =
          some (setRequestHeaders req (formDataContentType w.boundary))) := by
  intro req ct
  refine ⟨fun k => ?_, ?_, ?_⟩
  · unfold setRequestHeaders
    rw [values_addHeaders, values_baseHeader]
  · intro T E _ r w hnr
    exact requestJSON_sentHeaders r req w hnr
  · intro T E _ r w hwq hv hf hcl hnr
    exact requestMultipart_sentHeaders r req w hwq hv hf hcl hnr

/-- Witness for C6: an Authorization header set on the Request appears
verbatim on the outbound request next to the computed headers. -/
theorem set_request_headers_merge_witness :
    wOk.newRequestErr = none ∧
    (rqJSON.requestJSON reqAuth wOk).sentHeaders =
      some (setRequestHeaders reqAuth jsonContentType) ∧
    Header.values (setRequestHeaders reqAuth jsonContentType) "Authorization" = ["Bearer token"] := by
  refine ⟨rfl, (set_request_headers_merge reqAuth jsonContentType).2.1 rqJSON wOk rfl, by decide⟩

end GraphqlV2
